import Mathlib

/-!
Shallow embedding of src/parser/parser.c (the pgpool/prestogres copy of the
PostgreSQL parser driver): the token lookahead filter base_yylex, the parse
driver raw_parser, the session parameter store parser_set_param together with
parse_version, the encoding accessor GetDatabaseEncoding, and pg_mblen.
-/

/-- Token kinds relevant to the lookahead filter: the two ambiguous lead
tokens (NULLS_P, WITH), their probe tokens (FIRST_P, LAST_P, TIME), the
composite tokens produced only by the filter, the scanner end marker (flex
returns 0 at end of input), and a catch-all family for every other token
kind of the grammar. -/
inductive Tok where
  | NULLS_P
  | WITH
  | FIRST_P
  | LAST_P
  | TIME
  | NULLS_FIRST
  | NULLS_LAST
  | WITH_TIME
  | EOF
  | other : Nat → Tok
deriving DecidableEq

/-- A raw token as handed over the core_yylex interface: kind (the int
return value), semantic value (core_YYSTYPE, opaque, modelled as Nat) and
source location (YYLTYPE, modelled as Nat). -/
structure RawToken where
  kind : Tok
  val : Nat
  loc : Nat
deriving DecidableEq

/-- The per-invocation filter state base_yy_extra_type (the lookahead
fields) together with the remaining raw token stream of the scanner. -/
structure LexState where
  have_lookahead : Bool
  lookahead_token : Tok
  lookahead_yylval : Nat
  lookahead_yylloc : Nat
  scanner : List RawToken
deriving DecidableEq

/-- The scanner pull interface core_yylex: yields the next raw token, or the
end marker (kind 0, modelled as Tok.EOF) once the stream is exhausted. -/
def core_yylex (s : List RawToken) : RawToken × List RawToken :=
  match s with
  | [] => (⟨Tok.EOF, 0, 0⟩, [])
  | t :: ts => (t, ts)

/-- base_yylex from parser.c: if a token is buffered, take it and clear the
flag, else pull from the scanner; then, if the current token is NULLS_P or
WITH, pull one more token and either merge (NULLS_FIRST / NULLS_LAST /
WITH_TIME — note the probe's value and location stay in lvalp and llocp, the
code restores the saved ones only in the default branch) or buffer the probe
and emit the lead with its saved value and location. -/
def base_yylex (st : LexState) : RawToken × LexState :=
  let pulled : RawToken × LexState :=
    if st.have_lookahead then
      (⟨st.lookahead_token, st.lookahead_yylval, st.lookahead_yylloc⟩,
       { st with have_lookahead := false })
    else
      let r := core_yylex st.scanner
      (r.1, { st with scanner := r.2 })
  let cur := pulled.1
  let st1 := pulled.2
  match cur.kind with
  | Tok.NULLS_P =>
      let cur_yylval := cur.val
      let cur_yylloc := cur.loc
      let r2 := core_yylex st1.scanner
      let nxt := r2.1
      let st2 := { st1 with scanner := r2.2 }
      match nxt.kind with
      | Tok.FIRST_P => (⟨Tok.NULLS_FIRST, nxt.val, nxt.loc⟩, st2)
      | Tok.LAST_P => (⟨Tok.NULLS_LAST, nxt.val, nxt.loc⟩, st2)
      | _ =>
          (⟨Tok.NULLS_P, cur_yylval, cur_yylloc⟩,
           { st2 with have_lookahead := true,
                      lookahead_token := nxt.kind,
                      lookahead_yylval := nxt.val,
                      lookahead_yylloc := nxt.loc })
  | Tok.WITH =>
      let cur_yylval := cur.val
      let cur_yylloc := cur.loc
      let r2 := core_yylex st1.scanner
      let nxt := r2.1
      let st2 := { st1 with scanner := r2.2 }
      match nxt.kind with
      | Tok.TIME => (⟨Tok.WITH_TIME, nxt.val, nxt.loc⟩, st2)
      | _ =>
          (⟨Tok.WITH, cur_yylval, cur_yylloc⟩,
           { st2 with have_lookahead := true,
                      lookahead_token := nxt.kind,
                      lookahead_yylval := nxt.val,
                      lookahead_yylloc := nxt.loc })
  | _ => (cur, st1)

/-- The merge table of the filter, (lead, probe, composite), read off the
two switch statements of base_yylex. -/
def merge_table : List (Tok × Tok × Tok) :=
  [(Tok.NULLS_P, Tok.FIRST_P, Tok.NULLS_FIRST),
   (Tok.NULLS_P, Tok.LAST_P, Tok.NULLS_LAST),
   (Tok.WITH, Tok.TIME, Tok.WITH_TIME)]

/-- The recognized ambiguous lead tokens: the cases of the outer switch of
base_yylex that trigger a probe. -/
def isLeadTok : Tok → Bool
  | Tok.NULLS_P => true
  | Tok.WITH => true
  | _ => false

/-- The continuation set of a lead token: the probe kinds that cause a
merge in base_yylex. -/
def inContinuation : Tok → Tok → Bool
  | Tok.NULLS_P, Tok.FIRST_P => true
  | Tok.NULLS_P, Tok.LAST_P => true
  | Tok.WITH, Tok.TIME => true
  | _, _ => false

/-- Repeatedly call base_yylex, collecting the emitted tokens, until the
buffer is empty and the scanner stream is exhausted; fuel bounds the
recursion. -/
def drainAux : Nat → LexState → List RawToken
  | 0, _ => []
  | fuel + 1, st =>
      if st.have_lookahead = false ∧ st.scanner = [] then []
      else
        let r := base_yylex st
        r.1 :: drainAux fuel r.2

/-- The full filtered token stream produced from a filter state: for a fresh
state over a stream with no lead tokens each call consumes exactly one raw
token, so length + 1 units of fuel suffice. -/
def drain (st : LexState) : List RawToken :=
  drainAux (st.scanner.length + 1) st

/-- The encoding enumeration, restricted to the two values parser.c can
store in server_encoding. -/
inductive pg_enc where
  | PG_SQL_ASCII
  | PG_UTF8
deriving DecidableEq

/-- The process-wide configuration written by parser_set_param: the globals
server_version_num, server_encoding and standard_conforming_strings. -/
structure ParserParams where
  server_version_num : Int
  server_encoding : pg_enc
  standard_conforming_strings : Bool
deriving DecidableEq

/-- The state of the globals before any parser_set_param call:
server_version_num = 0 and server_encoding = PG_SQL_ASCII are the
initializers in parser.c; standard_conforming_strings is a global defined
outside this file (in the scanner unit), so its initial value is a
parameter. -/
def initialParams (scs : Bool) : ParserParams :=
  ⟨0, pg_enc.PG_SQL_ASCII, scs⟩

/-- C whitespace as recognized by a scanf %d directive. -/
def isCWs (c : Char) : Bool :=
  c = ' ' ∨ c = '\t' ∨ c = '\n' ∨ c = '\x0b' ∨ c = '\x0c' ∨ c = '\r'

/-- Drop leading C whitespace. -/
def skipWs : List Char → List Char
  | [] => []
  | c :: cs => if isCWs c then skipWs cs else c :: cs

/-- Consume a maximal run of decimal digits, accumulating their value. -/
def readDigits : List Char → Nat → Nat × List Char
  | [], acc => (acc, [])
  | c :: cs, acc =>
      if c.isDigit then readDigits cs (acc * 10 + (c.toNat - 48))
      else (acc, c :: cs)

/-- One scanf %d conversion: skip whitespace, take an optional sign, then
require at least one digit; on matching failure yield none. -/
def scanIntCore (s : List Char) : Option (Int × List Char) :=
  let s1 := skipWs s
  let signed : Int × List Char :=
    match s1 with
    | '-' :: cs => (-1, cs)
    | '+' :: cs => (1, cs)
    | cs => (1, cs)
  match signed.2 with
  | [] => none
  | c :: _ =>
      if c.isDigit then
        let r := readDigits signed.2 0
        some (signed.1 * (r.1 : Int), r.2)
      else none

/-- sscanf(versionString, "%d.%d.%d", ...): the number of successful
conversions together with the three converted values (a slot not assigned
stays at the placeholder 0; parse_version never reads an unassigned slot). -/
def sscanf3 (s : String) : Nat × Int × Int × Int :=
  match scanIntCore s.data with
  | none => (0, 0, 0, 0)
  | some (a, r1) =>
      match r1 with
      | '.' :: r2 =>
          match scanIntCore r2 with
          | none => (1, a, 0, 0)
          | some (b, r3) =>
              match r3 with
              | '.' :: r4 =>
                  match scanIntCore r4 with
                  | none => (2, a, b, 0)
                  | some (c, _) => (3, a, b, c)
              | _ => (2, a, b, 0)
      | _ => (1, a, 0, 0)

/-- parse_version from parser.c: fewer than two converted components yield
the sentinel -1; a missing revision defaults to 0; otherwise the version is
encoded as (100 * major + minor) * 100 + revision. -/
def parse_version (versionString : String) : Int :=
  let r := sscanf3 versionString
  let cnt := r.1
  let vmaj := r.2.1
  let vmin := r.2.2.1
  if cnt < 2 then -1
  else
    let vrev := if cnt = 2 then 0 else r.2.2.2
    (100 * vmaj + vmin) * 100 + vrev

/-- parser_set_param from parser.c: the three recognized names each
overwrite their global; any other name falls through all the strcmp
branches and changes nothing. -/
def parser_set_param (name value : String) (p : ParserParams) : ParserParams :=
  if name = "server_version" then
    { p with server_version_num := parse_version value }
  else if name = "server_encoding" then
    if value = "UTF8" then { p with server_encoding := pg_enc.PG_UTF8 }
    else { p with server_encoding := pg_enc.PG_SQL_ASCII }
  else if name = "standard_conforming_strings" then
    if value = "on" then { p with standard_conforming_strings := true }
    else { p with standard_conforming_strings := false }
  else p

/-- GetDatabaseEncoding from parser.c: reads the server_encoding global. -/
def GetDatabaseEncoding (p : ParserParams) : pg_enc :=
  p.server_encoding

/-- Modelled from the spec: pg_utf_mblen is defined in the encoding support
unit (pg_wchar), which is not among the given sources; per the spec the
UTF-8 length is implied by the bit pattern of the leading byte — 1 for the
ASCII range, 2/3/4 for the standard UTF-8 lead-byte prefixes, and 1 as the
conservative default for invalid or continuation-only bytes. -/
def pg_utf_mblen (s : Nat) : Nat :=
  if s &&& 0x80 = 0 then 1
  else if s &&& 0xe0 = 0xc0 then 2
  else if s &&& 0xf0 = 0xe0 then 3
  else if s &&& 0xf8 = 0xf0 then 4
  else 1

/-- pg_mblen from parser.c: it delegates to pg_utf_mblen unconditionally,
never consulting the configured server_encoding. -/
def pg_mblen (mbstr : Nat) : Nat :=
  pg_utf_mblen mbstr

/-- The possible outcomes of the one base_yyparse call made by raw_parser:
either an error is raised during scanning or parsing (caught by PG_CATCH),
or the engine returns with a result code and the parsetree it populated. -/
inductive EngineOutcome (α : Type) where
  | raised : EngineOutcome α
  | finished : Int → List α → EngineOutcome α
deriving DecidableEq

/-- raw_parser from parser.c, as a function of the engine outcome: a raised
error is caught and becomes NIL; a non-zero yyresult becomes NIL; only a
zero yyresult returns the engine's parsetree. -/
def rawParser {α : Type} (run : EngineOutcome α) : List α :=
  match run with
  | EngineOutcome.raised => []
  | EngineOutcome.finished yyresult trees =>
      if yyresult ≠ 0 then [] else trees

/-- One-step unfolding of drainAux at positive fuel. -/
lemma drainAux_succ (fuel : Nat) (st : LexState) :
    drainAux (fuel + 1) st =
      if st.have_lookahead = false ∧ st.scanner = [] then []
      else (base_yylex st).1 :: drainAux fuel (base_yylex st).2 := rfl

/-- With no buffered token and a non-lead token at the head of the stream,
base_yylex emits that token unchanged and only advances the scanner. -/
lemma base_yylex_fresh_nonlead (t : RawToken) (rest : List RawToken)
    (lt0 : Tok) (lv0 ll0 : Nat) (ht : isLeadTok t.kind = false) :
    base_yylex ⟨false, lt0, lv0, ll0, t :: rest⟩ =
      (t, ⟨false, lt0, lv0, ll0, rest⟩) := by
  obtain ⟨k, v, l⟩ := t
  cases k <;> first | rfl | simp [isLeadTok] at ht

/-- With a buffered non-lead token, base_yylex returns the buffered token
with its saved value and location, clears the flag, and leaves the scanner
and the stale lookahead fields untouched. -/
lemma base_yylex_buffered_nonlead (st : LexState)
    (hla : st.have_lookahead = true) (ht : isLeadTok st.lookahead_token = false) :
    base_yylex st =
      (⟨st.lookahead_token, st.lookahead_yylval, st.lookahead_yylloc⟩,
       { st with have_lookahead := false }) := by
  obtain ⟨la, lt, lv, ll, sc⟩ := st
  cases la
  · exact Bool.noConfusion hla
  · cases lt <;> first | rfl | simp [isLeadTok] at ht

/-- With no buffered token and a merge-table pair at the head of the
stream, base_yylex consumes both tokens and emits the composite kind —
carrying the probe token's value and location, since the code does not
restore the saved lead value and location on the merge path. -/
lemma base_yylex_fresh_merge (lead probe comp : Tok)
    (hm : (lead, probe, comp) ∈ merge_table)
    (lv ll pv pl : Nat) (rest : List RawToken) (lt0 : Tok) (lv0 ll0 : Nat) :
    base_yylex ⟨false, lt0, lv0, ll0, ⟨lead, lv, ll⟩ :: ⟨probe, pv, pl⟩ :: rest⟩ =
      (⟨comp, pv, pl⟩, ⟨false, lt0, lv0, ll0, rest⟩) := by
  simp [merge_table] at hm
  rcases hm with ⟨h1, h2, h3⟩ | ⟨h1, h2, h3⟩ | ⟨h1, h2, h3⟩ <;>
    subst h1 <;> subst h2 <;> subst h3 <;> rfl

/-- With no buffered token, a lead token at the head and a probe outside
its continuation set, base_yylex emits the lead with its original value and
location and buffers the probe. -/
lemma base_yylex_fresh_defer (lead probe : Tok)
    (hl : isLeadTok lead = true) (hc : inContinuation lead probe = false)
    (lv ll pv pl : Nat) (rest : List RawToken) (lt0 : Tok) (lv0 ll0 : Nat) :
    base_yylex ⟨false, lt0, lv0, ll0, ⟨lead, lv, ll⟩ :: ⟨probe, pv, pl⟩ :: rest⟩ =
      (⟨lead, lv, ll⟩, ⟨true, probe, pv, pl, rest⟩) := by
  cases lead <;> try simp [isLeadTok] at hl
  · cases probe <;> first | rfl | simp [inContinuation] at hc
  · cases probe <;> first | rfl | simp [inContinuation] at hc

/-- Over a stream with no lead tokens, draining a fresh filter state
reproduces the stream exactly. -/
lemma drainAux_no_leads (ts : List RawToken) :
    ∀ (lt0 : Tok) (lv0 ll0 : Nat),
    (∀ t ∈ ts, isLeadTok t.kind = false) →
    drainAux (ts.length + 1) ⟨false, lt0, lv0, ll0, ts⟩ = ts := by
  induction ts with
  | nil => intro lt0 lv0 ll0 h; rfl
  | cons t ts ih =>
      intro lt0 lv0 ll0 h
      have ht : isLeadTok t.kind = false := h t (List.mem_cons_self t ts)
      have hrest : ∀ u ∈ ts, isLeadTok u.kind = false :=
        fun u hu => h u (List.mem_cons_of_mem t hu)
      rw [List.length_cons, drainAux_succ]
      rw [if_neg (by simp)]
      rw [base_yylex_fresh_nonlead t ts lt0 lv0 ll0 ht]
      exact congrArg (t :: ·) (ih lt0 lv0 ll0 hrest)

/-- C1: for every (lead, probe, composite) entry of the merge table —
(NULLS_P, FIRST_P, NULLS_FIRST), (NULLS_P, LAST_P, NULLS_LAST),
(WITH, TIME, WITH_TIME) — a call to base_yylex with no token buffered and
the scanner yielding lead then probe emits exactly one token, of the
composite kind, and consumes exactly two raw tokens: the scanner is
advanced past both and no token is left buffered. -/
theorem C1_merge_pairs (lead probe comp : Tok)
    (hm : (lead, probe, comp) ∈ merge_table)
    (lv ll pv pl : Nat) (rest : List RawToken) (lt0 : Tok) (lv0 ll0 : Nat) :
    (base_yylex ⟨false, lt0, lv0, ll0,
        ⟨lead, lv, ll⟩ :: ⟨probe, pv, pl⟩ :: rest⟩).1.kind = comp ∧
    (base_yylex ⟨false, lt0, lv0, ll0,
        ⟨lead, lv, ll⟩ :: ⟨probe, pv, pl⟩ :: rest⟩).2.scanner = rest ∧
    (base_yylex ⟨false, lt0, lv0, ll0,
        ⟨lead, lv, ll⟩ :: ⟨probe, pv, pl⟩ :: rest⟩).2.have_lookahead = false := by
  rw [base_yylex_fresh_merge lead probe comp hm lv ll pv pl rest lt0 lv0 ll0]
  exact ⟨rfl, rfl, rfl⟩

theorem C1_merge_pairs_witness :
    (Tok.WITH, Tok.TIME, Tok.WITH_TIME) ∈ merge_table ∧
    ((base_yylex ⟨false, Tok.EOF, 0, 0,
        [⟨Tok.WITH, 1, 10⟩, ⟨Tok.TIME, 2, 20⟩]⟩).1.kind = Tok.WITH_TIME ∧
     (base_yylex ⟨false, Tok.EOF, 0, 0,
        [⟨Tok.WITH, 1, 10⟩, ⟨Tok.TIME, 2, 20⟩]⟩).2.scanner = [] ∧
     (base_yylex ⟨false, Tok.EOF, 0, 0,
        [⟨Tok.WITH, 1, 10⟩, ⟨Tok.TIME, 2, 20⟩]⟩).2.have_lookahead = false) :=
  ⟨by decide,
   C1_merge_pairs Tok.WITH Tok.TIME Tok.WITH_TIME (by decide) 1 10 2 20 [] Tok.EOF 0 0⟩

/-- C2 counterexample: NULLS_P is a lead token and WITH is outside its
continuation set, yet on the raw stream [NULLS_P, WITH, TIME] the call
after the one that emits the lead does not return the probed WITH token
unchanged — the buffered WITH is itself a lead token, so that call probes
the scanner again and returns the composite WITH_TIME instead. -/
theorem C2_counterexample :
    isLeadTok Tok.NULLS_P = true ∧
    inContinuation Tok.NULLS_P Tok.WITH = false ∧
    (base_yylex ⟨false, Tok.EOF, 0, 0,
        [⟨Tok.NULLS_P, 1, 10⟩, ⟨Tok.WITH, 2, 20⟩, ⟨Tok.TIME, 3, 30⟩]⟩).1 =
      ⟨Tok.NULLS_P, 1, 10⟩ ∧
    (base_yylex (base_yylex ⟨false, Tok.EOF, 0, 0,
        [⟨Tok.NULLS_P, 1, 10⟩, ⟨Tok.WITH, 2, 20⟩, ⟨Tok.TIME, 3, 30⟩]⟩).2).1.kind =
      Tok.WITH_TIME ∧
    Tok.WITH_TIME ≠ Tok.WITH := by decide

/-- C2 (amended): for a lead token whose probe is outside its continuation
set, base_yylex emits the lead unchanged with its original value and
location, and — provided the probed token is not itself a lead token — the
very next call returns the probed token unchanged, after which the scanner
stands exactly at the rest of the stream with nothing buffered (no token
lost or duplicated). -/
theorem C2_defer_amended (lead probe : Tok)
    (hl : isLeadTok lead = true) (hc : inContinuation lead probe = false)
    (hp : isLeadTok probe = false)
    (lv ll pv pl : Nat) (rest : List RawToken) (lt0 : Tok) (lv0 ll0 : Nat) :
    base_yylex ⟨false, lt0, lv0, ll0, ⟨lead, lv, ll⟩ :: ⟨probe, pv, pl⟩ :: rest⟩ =
      (⟨lead, lv, ll⟩, ⟨true, probe, pv, pl, rest⟩) ∧
    base_yylex ⟨true, probe, pv, pl, rest⟩ =
      (⟨probe, pv, pl⟩, ⟨false, probe, pv, pl, rest⟩) :=
  ⟨base_yylex_fresh_defer lead probe hl hc lv ll pv pl rest lt0 lv0 ll0,
   base_yylex_buffered_nonlead ⟨true, probe, pv, pl, rest⟩ rfl hp⟩

theorem C2_defer_amended_witness :
    (isLeadTok Tok.NULLS_P = true ∧
     inContinuation Tok.NULLS_P (Tok.other 5) = false ∧
     isLeadTok (Tok.other 5) = false) ∧
    (base_yylex ⟨false, Tok.EOF, 0, 0,
        [⟨Tok.NULLS_P, 1, 10⟩, ⟨Tok.other 5, 2, 20⟩]⟩ =
      (⟨Tok.NULLS_P, 1, 10⟩, ⟨true, Tok.other 5, 2, 20, []⟩) ∧
     base_yylex ⟨true, Tok.other 5, 2, 20, []⟩ =
      (⟨Tok.other 5, 2, 20⟩, ⟨false, Tok.other 5, 2, 20, []⟩)) :=
  ⟨⟨by decide, by decide, by decide⟩,
   C2_defer_amended Tok.NULLS_P (Tok.other 5) (by decide) (by decide) (by decide)
     1 10 2 20 [] Tok.EOF 0 0⟩

/-- C3: on a raw token stream containing no recognized ambiguous lead token
(no NULLS_P and no WITH), the stream produced by the lookahead filter from
a fresh state is identical to the raw scanner stream — same kinds, values
and locations, in the same order. -/
theorem C3_transparent (ts : List RawToken) (lt0 : Tok) (lv0 ll0 : Nat)
    (h : ∀ t ∈ ts, isLeadTok t.kind = false) :
    drain ⟨false, lt0, lv0, ll0, ts⟩ = ts :=
  drainAux_no_leads ts lt0 lv0 ll0 h

theorem C3_transparent_witness :
    (∀ t ∈ ([⟨Tok.other 7, 1, 2⟩, ⟨Tok.FIRST_P, 3, 4⟩, ⟨Tok.TIME, 5, 6⟩] :
        List RawToken), isLeadTok t.kind = false) ∧
    drain ⟨false, Tok.EOF, 0, 0,
        [⟨Tok.other 7, 1, 2⟩, ⟨Tok.FIRST_P, 3, 4⟩, ⟨Tok.TIME, 5, 6⟩]⟩ =
      [⟨Tok.other 7, 1, 2⟩, ⟨Tok.FIRST_P, 3, 4⟩, ⟨Tok.TIME, 5, 6⟩] :=
  ⟨by decide,
   C3_transparent [⟨Tok.other 7, 1, 2⟩, ⟨Tok.FIRST_P, 3, 4⟩, ⟨Tok.TIME, 5, 6⟩]
     Tok.EOF 0 0 (by decide)⟩

/-- C4 counterexample: merging NULLS_P at location 10 with FIRST_P at
location 20 emits a composite token whose location is 20 — the probe's
location, not the lead's — and whose value is the probe's value 2, because
the merge path never restores the saved lead value and location. -/
theorem C4_counterexample :
    (Tok.NULLS_P, Tok.FIRST_P, Tok.NULLS_FIRST) ∈ merge_table ∧
    (base_yylex ⟨false, Tok.EOF, 0, 0,
        [⟨Tok.NULLS_P, 1, 10⟩, ⟨Tok.FIRST_P, 2, 20⟩]⟩).1 =
      ⟨Tok.NULLS_FIRST, 2, 20⟩ ∧
    (base_yylex ⟨false, Tok.EOF, 0, 0,
        [⟨Tok.NULLS_P, 1, 10⟩, ⟨Tok.FIRST_P, 2, 20⟩]⟩).1.loc ≠ 10 := by decide

/-- C4 (amended): whenever the filter merges a lead token with a matching
probe, the emitted composite token carries the probe token's semantic value
and location; it is the lead token's value and location that are discarded,
and neither token's data is retained in the filter state (the lookahead
fields keep their stale prior contents and the flag stays clear). -/
theorem C4_merge_keeps_probe_info (lead probe comp : Tok)
    (hm : (lead, probe, comp) ∈ merge_table)
    (lv ll pv pl : Nat) (rest : List RawToken) (lt0 : Tok) (lv0 ll0 : Nat) :
    base_yylex ⟨false, lt0, lv0, ll0, ⟨lead, lv, ll⟩ :: ⟨probe, pv, pl⟩ :: rest⟩ =
      (⟨comp, pv, pl⟩, ⟨false, lt0, lv0, ll0, rest⟩) :=
  base_yylex_fresh_merge lead probe comp hm lv ll pv pl rest lt0 lv0 ll0

theorem C4_merge_keeps_probe_info_witness :
    (Tok.NULLS_P, Tok.LAST_P, Tok.NULLS_LAST) ∈ merge_table ∧
    base_yylex ⟨false, Tok.EOF, 0, 0,
        [⟨Tok.NULLS_P, 1, 10⟩, ⟨Tok.LAST_P, 2, 20⟩]⟩ =
      (⟨Tok.NULLS_LAST, 2, 20⟩, ⟨false, Tok.EOF, 0, 0, []⟩) :=
  ⟨by decide,
   C4_merge_keeps_probe_info Tok.NULLS_P Tok.LAST_P Tok.NULLS_LAST (by decide)
     1 10 2 20 [] Tok.EOF 0 0⟩

/-- C5 counterexample: starting fresh on the raw stream
[WITH, NULLS_P, FIRST_P], the first call buffers NULLS_P; the second call —
made while NULLS_P is buffered — does not return the buffered token: it
probes the scanner (consuming FIRST_P) and returns NULLS_FIRST, because a
token taken from the buffer still flows through the lead-token switch. -/
theorem C5_counterexample :
    (base_yylex ⟨false, Tok.EOF, 0, 0,
        [⟨Tok.WITH, 1, 10⟩, ⟨Tok.NULLS_P, 2, 20⟩, ⟨Tok.FIRST_P, 3, 30⟩]⟩).2 =
      ⟨true, Tok.NULLS_P, 2, 20, [⟨Tok.FIRST_P, 3, 30⟩]⟩ ∧
    (base_yylex ⟨true, Tok.NULLS_P, 2, 20, [⟨Tok.FIRST_P, 3, 30⟩]⟩).1 =
      ⟨Tok.NULLS_FIRST, 3, 30⟩ ∧
    Tok.NULLS_FIRST ≠ Tok.NULLS_P ∧
    (base_yylex ⟨true, Tok.NULLS_P, 2, 20, [⟨Tok.FIRST_P, 3, 30⟩]⟩).2.scanner = [] := by
  decide

/-- C5 (amended): a call made while a token is buffered always consumes the
buffered token and clears the flag; when the buffered token is not itself a
lead token it is returned unchanged with its saved value and location, and
the scanner is not read at all (a buffered lead token is instead
re-examined and may trigger a fresh probe). -/
theorem C5_buffered_amended (st : LexState)
    (hla : st.have_lookahead = true) (ht : isLeadTok st.lookahead_token = false) :
    base_yylex st =
      (⟨st.lookahead_token, st.lookahead_yylval, st.lookahead_yylloc⟩,
       { st with have_lookahead := false }) :=
  base_yylex_buffered_nonlead st hla ht

theorem C5_buffered_amended_witness :
    ((⟨true, Tok.other 9, 4, 7, [⟨Tok.TIME, 5, 8⟩]⟩ : LexState).have_lookahead = true ∧
     isLeadTok (Tok.other 9) = false) ∧
    base_yylex ⟨true, Tok.other 9, 4, 7, [⟨Tok.TIME, 5, 8⟩]⟩ =
      (⟨Tok.other 9, 4, 7⟩, ⟨false, Tok.other 9, 4, 7, [⟨Tok.TIME, 5, 8⟩]⟩) :=
  ⟨⟨rfl, by decide⟩,
   C5_buffered_amended ⟨true, Tok.other 9, 4, 7, [⟨Tok.TIME, 5, 8⟩]⟩ rfl (by decide)⟩

/-- C6: whenever the one base_yyparse call either raises an error (caught
by the PG_CATCH arm) or returns a non-zero result code, raw_parser returns
the empty list — never a partial statement tree — and, the embedding being
a total function into lists, no error escapes to the caller. -/
theorem C6_failure_empty {α : Type} (run : EngineOutcome α)
    (h : run = EngineOutcome.raised ∨
         ∃ r ts, run = EngineOutcome.finished r ts ∧ r ≠ 0) :
    rawParser run = [] := by
  rcases h with h | ⟨r, ts, h, hr⟩
  · subst h; rfl
  · subst h; simp [rawParser, hr]

theorem C6_failure_empty_witness :
    rawParser (EngineOutcome.raised : EngineOutcome Nat) = [] ∧
    rawParser (EngineOutcome.finished 1 [42] : EngineOutcome Nat) = [] :=
  ⟨C6_failure_empty EngineOutcome.raised (Or.inl rfl),
   C6_failure_empty (EngineOutcome.finished 1 [42])
     (Or.inr ⟨1, [42], rfl, by decide⟩)⟩

/-- C7 counterexample: with the configuration in its default state — the
single-byte encoding PG_SQL_ASCII — pg_mblen on the 0xC2 lead byte still
returns 2, not 1: pg_mblen applies the UTF-8 lead-byte rule unconditionally
and never consults the configured encoding. -/
theorem C7_counterexample :
    GetDatabaseEncoding (initialParams false) = pg_enc.PG_SQL_ASCII ∧
    pg_mblen 0xC2 = 2 ∧
    pg_mblen 0xC2 ≠ 1 := by decide

/-- C7 (amended): after setting server_encoding to UTF8, pg_mblen on 0xC2
returns 2; pg_mblen on 0x41 returns 1 regardless of the configured
encoding; but with the encoding left at its single-byte default, pg_mblen
on 0xC2 also returns 2, because the function delegates to the UTF-8
lead-byte computation without reading the configured encoding. -/
theorem C7_mblen_amended (p : ParserParams) (scs : Bool) :
    GetDatabaseEncoding (parser_set_param "server_encoding" "UTF8" p) =
      pg_enc.PG_UTF8 ∧
    pg_mblen 0xC2 = 2 ∧
    pg_mblen 0x41 = 1 ∧
    GetDatabaseEncoding (initialParams scs) = pg_enc.PG_SQL_ASCII ∧
    pg_mblen 0xC2 ≠ 1 :=
  ⟨rfl, by decide, by decide, rfl, by decide⟩

/-- C8 counterexample: setParameter("server_version", "9.1.3") stores
90103, not 91003 as the claim computes — (100 * 9 + 1) * 100 + 3 = 90103. -/
theorem C8_counterexample :
    (parser_set_param "server_version" "9.1.3" (initialParams false)).server_version_num =
      90103 ∧
    (parser_set_param "server_version" "9.1.3" (initialParams false)).server_version_num ≠
      91003 := by decide

/-- C8 (amended): setParameter("server_version", "9.1.3") stores
(100 * 9 + 1) * 100 + 3 = 90103; "9.1" stores 90100 with the revision
defaulting to 0; and "bogus" stores the unknown-version sentinel -1 rather
than failing. -/
theorem C8_version_amended (p : ParserParams) :
    (parser_set_param "server_version" "9.1.3" p).server_version_num =
      (100 * 9 + 1) * 100 + 3 ∧
    ((100 * 9 + 1) * 100 + 3 : Int) = 90103 ∧
    (parser_set_param "server_version" "9.1" p).server_version_num = 90100 ∧
    (parser_set_param "server_version" "bogus" p).server_version_num = -1 :=
  ⟨rfl, rfl, rfl, rfl⟩

/-- C9: parser_set_param recognizes exactly the three names server_version,
server_encoding and standard_conforming_strings — any other name leaves the
whole configuration unchanged; for server_encoding the exact value "UTF8"
(and only it, case-sensitively) selects PG_UTF8 and every other value
selects PG_SQL_ASCII; for standard_conforming_strings exactly the value
"on" yields true; and each recognized name touches only its own field. -/
theorem C9_param_names (name value : String) (p : ParserParams) :
    (name ≠ "server_version" → name ≠ "server_encoding" →
     name ≠ "standard_conforming_strings" →
        parser_set_param name value p = p) ∧
    ((parser_set_param "server_encoding" value p).server_encoding =
        pg_enc.PG_UTF8 ↔ value = "UTF8") ∧
    (value ≠ "UTF8" →
        (parser_set_param "server_encoding" value p).server_encoding =
          pg_enc.PG_SQL_ASCII) ∧
    ((parser_set_param "standard_conforming_strings" value p).standard_conforming_strings =
        true ↔ value = "on") ∧
    (parser_set_param "server_encoding" value p).server_version_num =
      p.server_version_num ∧
    (parser_set_param "server_encoding" value p).standard_conforming_strings =
      p.standard_conforming_strings ∧
    (parser_set_param "standard_conforming_strings" value p).server_version_num =
      p.server_version_num ∧
    (parser_set_param "standard_conforming_strings" value p).server_encoding =
      p.server_encoding ∧
    (parser_set_param "server_version" value p).server_encoding =
      p.server_encoding ∧
    (parser_set_param "server_version" value p).standard_conforming_strings =
      p.standard_conforming_strings := by
  have henc : parser_set_param "server_encoding" value p =
      if value = "UTF8" then { p with server_encoding := pg_enc.PG_UTF8 }
      else { p with server_encoding := pg_enc.PG_SQL_ASCII } := rfl
  have hscs : parser_set_param "standard_conforming_strings" value p =
      if value = "on" then { p with standard_conforming_strings := true }
      else { p with standard_conforming_strings := false } := rfl
  have hver : parser_set_param "server_version" value p =
      { p with server_version_num := parse_version value } := rfl
  refine ⟨?_, ?_, ?_, ?_, ?_, ?_, ?_, ?_, ?_, ?_⟩
  · intro h1 h2 h3
    unfold parser_set_param
    rw [if_neg h1, if_neg h2, if_neg h3]
  · rw [henc]
    by_cases hv : value = "UTF8" <;> simp [hv]
  · intro hv; rw [henc, if_neg hv]
  · rw [hscs]
    by_cases hv : value = "on" <;> simp [hv]
  · rw [henc]; by_cases hv : value = "UTF8" <;> simp [hv]
  · rw [henc]; by_cases hv : value = "UTF8" <;> simp [hv]
  · rw [hscs]; by_cases hv : value = "on" <;> simp [hv]
  · rw [hscs]; by_cases hv : value = "on" <;> simp [hv]
  · rw [hver]
  · rw [hver]

theorem C9_param_names_witness :
    parser_set_param "search_path" "public" (initialParams false) =
      initialParams false ∧
    (parser_set_param "server_encoding" "utf8" (initialParams false)).server_encoding =
      pg_enc.PG_SQL_ASCII :=
  ⟨(C9_param_names "search_path" "public" (initialParams false)).1
     (by decide) (by decide) (by decide),
   (C9_param_names "x" "utf8" (initialParams false)).2.2.1 (by decide)⟩

/-- C10: before any parser_set_param call the configuration is in a
definite default state — GetDatabaseEncoding yields the single-byte
PG_SQL_ASCII and the stored version number is 0 — and that default is
observably different from the unknown-version sentinel -1 that
setParameter("server_version", "bogus") stores. -/
theorem C10_defaults (scs : Bool) :
    GetDatabaseEncoding (initialParams scs) = pg_enc.PG_SQL_ASCII ∧
    (initialParams scs).server_version_num = 0 ∧
    parse_version "bogus" = -1 ∧
    (initialParams scs).server_version_num ≠
      (parser_set_param "server_version" "bogus" (initialParams scs)).server_version_num := by
  refine ⟨rfl, rfl, rfl, ?_⟩
  show (0 : Int) ≠ -1
  decide
